import Mathlib

/-!
Shallow embedding of the event generators of this repository:

* `steps/step_0_cascade_simulation.py` — the `CascadeFactory` icetray module
  (`Configure` validation, per-event sampling in `DAQ`, decay-tree
  construction, event-count bookkeeping), and

* `steps/step_0_muon_resimulation.py` — `create_muon` (anchor-point
  back-projection) and the `ParticleMultiplier` module.

Modelling conventions:

* Python floats are embedded as exact rationals `ℚ`; only the muon direction
  geometry (the external `I3Direction` spherical-to-Cartesian conversion,
  which involves `sin`/`cos` and the radian constant `π/180`) uses `ℝ`.
* The external random service (built by `utils.create_random_services`, a
  repository module not present under `src/`) is modelled from the spec:
  a deterministic stream of unit draws consumed one per call, with
  `uniform(lo, hi)` mapping a unit draw `u` to `lo + (hi - lo) * u` and
  `integer(n)` mapping a unit draw to an index in `[0, n)`; `n = 0` is an
  input-constraint violation, per the spec of `sample_index`.
* IceTray unit constants: in the icetray unit system the base units are the
  metre, the nanosecond and GeV, so `I3Units.m = I3Units.ns = I3Units.GeV
  = 1`; `I3Units.deg = π/180` is irrational, so the cascade module (which
  only ever multiplies sampled angles by it and stores the result) is
  parametrised by a rational `deg` argument, keeping the whole cascade model
  computable; the muon module, which feeds angles into trigonometry, uses
  the real constant.
* Exceptions (`ValueError` raised by `Configure`/`DAQ`) are embedded as
  `Except SimError`.
-/

deriving instance DecidableEq for Except

/-- Sampling range `[lo, hi]` as passed in the configuration. -/
structure Range where
  lo : ℚ
  hi : ℚ
  deriving DecidableEq

/-- Metre, the icetray base length unit (`I3Units.m = 1`). -/
def I3Units.m : ℚ := 1

/-- Nanosecond, the icetray base time unit (`I3Units.ns = 1`). -/
def I3Units.ns : ℚ := 1

/-- GeV, the icetray base energy unit (`I3Units.GeV = 1`). -/
def I3Units.GeV : ℚ := 1

/-- Speed of light in vacuum, `I3Constants.c = 0.299792458` m/ns. -/
def I3Constants.c : ℚ := 299792458 / 1000000000

/-- Errors of the two scripts: the `ValueError`s raised by
`CascadeFactory.Configure` (the spec's ConfigurationError) and the failure
modes of event generation (`DAQ`). -/
inductive SimError where
  /-- `Configure`: `Interaction unkown: ...` -/
  | unknownInteraction (s : String)
  /-- `Configure`: `Flavor unkown: ...` -/
  | unknownFlavor (s : String)
  /-- Categorical draw `integer(n)` with `n = 0` (spec §4.1: input-constraint
  violation for `sample_index`). -/
  | badCategoryCount
  /-- List indexing out of range. -/
  | indexOutOfRange
  /-- `DAQ`: `particle_type ... not known or not implemented`. -/
  | unknownParticleType (s : String)
  deriving DecidableEq

/-- True on the errors raised at configuration time. -/
def SimError.isConfigurationError : SimError → Bool
  | .unknownInteraction _ => true
  | .unknownFlavor _ => true
  | _ => false

/-- True on the `DAQ` unknown-particle-type error (the final `else` branch of
the flavor dispatch). -/
def SimError.isUnknownParticleType : SimError → Bool
  | .unknownParticleType _ => true
  | _ => false

/-- True when a generation result is the unknown-particle-type error. -/
def Except.errIsUnknownParticleType : Except SimError α → Bool
  | .error e => e.isUnknownParticleType
  | .ok _ => false

/-- Modelled from the spec: the external RandomSource (built by
`utils.create_random_services`, not under `src/`) is a deterministic stream
of unit draws; its state advances by one with every draw. -/
structure RandomService where
  stream : ℕ → ℚ
  idx : ℕ

/-- Value of a uniform draw on `[lo, hi]` given the unit draw `u`. -/
def uniformVal (r : Range) (u : ℚ) : ℚ :=
  r.lo + (r.hi - r.lo) * u

/-- Modelled from the spec: `random_service.uniform(lo, hi)` draws one value
and advances the stream. -/
def RandomService.uniform (rs : RandomService) (r : Range) : ℚ × RandomService :=
  (uniformVal r (rs.stream rs.idx), ⟨rs.stream, rs.idx + 1⟩)

/-- Modelled from the spec: `random_service.integer(n)` draws a categorical
index in `[0, n)`; `n = 0` is an input-constraint violation (§4.1). -/
def RandomService.integer (rs : RandomService) (n : ℕ) :
    Except SimError (ℕ × RandomService) :=
  if n = 0 then .error .badCategoryCount
  else .ok ((⌊rs.stream rs.idx * (n : ℚ)⌋).toNat % n, ⟨rs.stream, rs.idx + 1⟩)

/-- Modelled from the spec: a RandomSource is seedable and reproducible — a
fresh instance is a pure function of the seed (`gen` is the PRNG family). -/
def RandomService.fromSeed (gen : ℕ → ℕ → ℚ) (seed : ℕ) : RandomService :=
  ⟨gen seed, 0⟩

/-- The `I3Particle.ParticleType` values used by the scripts. -/
inductive PType where
  | NuE | NuMu | NuTau
  | EMinus | MuMinus | TauMinus
  | Hadrons
  /-- Default value of a fresh `I3Particle` whose type is never assigned. -/
  | unknown
  deriving DecidableEq

/-- The `I3Particle` shapes used by the scripts; `null` is the default shape
of a fresh `I3Particle` (never assigned for the cascade primary). -/
inductive ParticleShape where
  | null | infiniteTrack | cascade
  deriving DecidableEq

/-- The `I3Particle.LocationType` values used by the scripts. -/
inductive LocationType where
  | inIce
  deriving DecidableEq

/-- An `I3Position` with rational coordinates. -/
structure Vec3Q where
  x : ℚ
  y : ℚ
  z : ℚ
  deriving DecidableEq

/-- An `I3Direction` of the cascade script, recorded by the (zenith, azimuth)
pair handed to its constructor. -/
structure I3DirectionSpec where
  zenith : ℚ
  azimuth : ℚ
  deriving DecidableEq

/-- An `I3Particle` as populated by the cascade script. -/
structure CParticle where
  ptype : PType
  pos : Vec3Q
  time : ℚ
  energy : ℚ
  speed : ℚ
  dir : I3DirectionSpec
  shape : ParticleShape
  location : LocationType
  deriving DecidableEq

/-- An `I3MCTree` with one primary: `add_primary` then `append_child` calls
put the children, in order, directly under the primary. -/
structure DecayTree (α : Type) where
  primary : α
  children : List α
  deriving DecidableEq

/-- Per-module event bookkeeping: `self.events_done` and
`self.num_events`. -/
structure DriverState where
  eventsDone : ℕ
  numEvents : ℕ
  deriving DecidableEq

/-- Lines `self.events_done += 1; if self.events_done >= self.num_events:
self.RequestSuspension()`, shared verbatim by `CascadeFactory.DAQ` and
`ParticleMultiplier.DAQ`; the returned Bool is whether suspension was
requested. -/
def driverTick (st : DriverState) : DriverState × Bool :=
  let st1 : DriverState := { st with eventsDone := st.eventsDone + 1 }
  (st1, if st1.eventsDone ≥ st.numEvents then true else false)

/-- Raw `CascadeFactory` parameters as registered in `__init__` and read by
`Configure` (the `random_state`/`random_service` parameters are carried
separately as the `RandomService` argument of the runs). -/
structure RawConfig where
  azimuthRange : Range
  zenithRange : Range
  hadronEnergyRange : Range
  fractionalEnergyInHadronsRange : Range
  timeRange : Range
  xRange : Range
  yRange : Range
  zRange : Range
  flavors : List String
  interactionTypes : List String
  numEvents : ℕ
  deriving DecidableEq

/-- The state `CascadeFactory.Configure` leaves on the module on success:
ranges, lowercased category lists, their stored lengths, the target event
count and `self.eps = 1e-6`. -/
structure Config where
  azimuthRange : Range
  zenithRange : Range
  hadronEnergyRange : Range
  fractionalEnergyInHadronsRange : Range
  timeRange : Range
  xRange : Range
  yRange : Range
  zRange : Range
  flavors : List String
  interactionTypes : List String
  numFlavors : ℕ
  numInteractionTypes : ℕ
  numEvents : ℕ
  eps : ℚ
  deriving DecidableEq

/-- Test of the `Configure` sanity check `int_type not in ['cc', 'nc']`. -/
def invalidInteraction (i : String) : Bool :=
  !(i == "cc" || i == "nc")

/-- Test of the `Configure` sanity check
`flavor not in ['nue', 'numu', 'nutau']`. -/
def invalidFlavor (f : String) : Bool :=
  !(f == "nue" || f == "numu" || f == "nutau")

/-- Python's `str.lower()`, modelled structurally over the character list;
it equals `String.toLower` (see `strToLower_eq_toLower`), which is defined
by well-founded recursion over byte positions and does not reduce
definitionally. -/
def strToLower (s : String) : String :=
  ⟨s.data.map Char.toLower⟩

theorem strToLower_eq_toLower (s : String) : strToLower s = s.toLower :=
  (String.map_eq Char.toLower s).symm

/-- The module state `Configure` stores when its sanity checks pass. -/
def configuredOf (raw : RawConfig) : Config :=
  { azimuthRange := raw.azimuthRange
    zenithRange := raw.zenithRange
    hadronEnergyRange := raw.hadronEnergyRange
    fractionalEnergyInHadronsRange := raw.fractionalEnergyInHadronsRange
    timeRange := raw.timeRange
    xRange := raw.xRange
    yRange := raw.yRange
    zRange := raw.zRange
    flavors := raw.flavors.map strToLower
    interactionTypes := raw.interactionTypes.map strToLower
    numFlavors := raw.flavors.length
    numInteractionTypes := raw.interactionTypes.length
    numEvents := raw.numEvents
    eps := 1 / 1000000 }

/-- `CascadeFactory.Configure`: stores the parameters, lowercases the
category lists, and raises `ValueError` on the first unknown interaction
type (checked first) or unknown flavor.  Note there is no emptiness check on
either list. -/
def CascadeFactory.Configure (raw : RawConfig) : Except SimError Config :=
  let cfg := configuredOf raw
  match cfg.interactionTypes.find? invalidInteraction with
  | some i => .error (.unknownInteraction i)
  | none =>
    match cfg.flavors.find? invalidFlavor with
    | some f => .error (.unknownFlavor f)
    | none => .ok cfg

/-- Line `primary_energy = hadron_energy / (self.eps + fraction)`. -/
def primaryEnergyOf (eps hadron_energy fraction : ℚ) : ℚ :=
  hadron_energy / (eps + fraction)

/-- Line `daughter_energy = primary_energy - hadron_energy`. -/
def daughterEnergyOf (eps hadron_energy fraction : ℚ) : ℚ :=
  primaryEnergyOf eps hadron_energy fraction - hadron_energy

/-- Lines `if interaction_type == 'cc' and flavor == 'numu': daughter.shape =
InfiniteTrack else: daughter.shape = Cascade`. -/
def resolveDaughterShape (flavor interaction : String) : ParticleShape :=
  if interaction = "cc" ∧ flavor = "numu" then .infiniteTrack else .cascade

/-- The flavor/interaction dispatch of `CascadeFactory.DAQ` (primary type and
daughter type); an interaction type that is neither `cc` nor `nc` leaves the
daughter type unassigned (the `I3Particle` default, `unknown`), while an
unknown flavor raises `ValueError` in the final `else` branch. -/
def resolveParticleTypes (flavor interaction : String) :
    Except SimError (PType × PType) :=
  if flavor = "numu" then
    .ok (.NuMu, if interaction = "cc" then .MuMinus
                else if interaction = "nc" then .NuMu else .unknown)
  else if flavor = "nutau" then
    .ok (.NuTau, if interaction = "cc" then .TauMinus
                 else if interaction = "nc" then .NuTau else .unknown)
  else if flavor = "nue" then
    .ok (.NuE, if interaction = "cc" then .EMinus
               else if interaction = "nc" then .NuE else .unknown)
  else .error (.unknownParticleType flavor)

/-- Indexing `self.flavors[...]` by a drawn index; a Python `IndexError`
(out of range) is an error. -/
def lookupItem (items : List String) (i : ℕ) (rsNext : RandomService) :
    Except SimError (String × RandomService) :=
  match items[i]? with
  | none => .error .indexOutOfRange
  | some x => .ok (x, rsNext)

/-- Line `self.flavors[self.random_service.integer(self.num_flavors)]` (and
its interaction-type analogue): a categorical draw indexing the stored
list. -/
def chooseCategory (rs : RandomService) (items : List String) (n : ℕ) :
    Except SimError (String × RandomService) :=
  match rs.integer n with
  | .error e => .error e
  | .ok (i, rsNext) => lookupItem items i rsNext

/-- The decay tree built by `CascadeFactory.DAQ` from the sampled quantities
and the resolved flavor/interaction: primary, then the daughter and the
hadronic shower appended as its children. -/
def cascadeTreeOf (cfg : Config)
    (vertex_x vertex_y vertex_z vertex_time azimuth zenith hadron_energy fraction : ℚ)
    (flavor interaction : String) (pk dk : PType) : DecayTree CParticle :=
  let vertex : Vec3Q :=
    ⟨vertex_x * I3Units.m, vertex_y * I3Units.m, vertex_z * I3Units.m⟩
  let primary_energy := primaryEnergyOf cfg.eps hadron_energy fraction
  let daughter_energy := primary_energy - hadron_energy
  let primary : CParticle :=
    { time := vertex_time * I3Units.ns
      dir := ⟨zenith, azimuth⟩
      energy := primary_energy * I3Units.GeV
      pos := vertex
      speed := I3Constants.c
      location := .inIce
      ptype := pk
      shape := .null }
  let daughter : CParticle :=
    { location := .inIce
      time := primary.time
      dir := primary.dir
      speed := primary.speed
      pos := primary.pos
      energy := daughter_energy * I3Units.GeV
      shape := resolveDaughterShape flavor interaction
      ptype := dk }
  let hadrons : CParticle :=
    { energy := hadron_energy * I3Units.GeV
      pos := daughter.pos
      time := daughter.time
      dir := daughter.dir
      speed := daughter.speed
      ptype := .Hadrons
      location := daughter.location
      shape := .cascade }
  ⟨primary, [daughter, hadrons]⟩

/-- Category selection and tree construction of `CascadeFactory.DAQ` (lines
following the eight uniform draws): pick flavor then interaction type by
categorical draw, dispatch on them, and build the tree. -/
def cascadeBuild (cfg : Config)
    (vertex_x vertex_y vertex_z vertex_time azimuth zenith hadron_energy fraction : ℚ)
    (rs : RandomService) :
    Except SimError (DecayTree CParticle) × RandomService :=
  match chooseCategory rs cfg.flavors cfg.numFlavors with
  | .error e => (.error e, rs)
  | .ok (flavor, rs9) =>
    match chooseCategory rs9 cfg.interactionTypes cfg.numInteractionTypes with
    | .error e => (.error e, rs9)
    | .ok (interaction, rs10) =>
      match resolveParticleTypes flavor interaction with
      | .error e => (.error e, rs10)
      | .ok (pk, dk) =>
        (.ok (cascadeTreeOf cfg vertex_x vertex_y vertex_z vertex_time
                azimuth zenith hadron_energy fraction
                flavor interaction pk dk), rs10)

/-- `CascadeFactory.DAQ`, sampling part: the eight uniform draws in source
order — vertex x, y, z, vertex time, azimuth, zenith, hadron energy,
hadronic fraction — each scaled by its unit constant exactly as in the
source (`deg` is the `I3Units.deg` constant, passed as a parameter), then
the categorical selection and tree construction. -/
def CascadeFactory.DAQ (deg : ℚ) (cfg : Config) (rs : RandomService) :
    Except SimError (DecayTree CParticle) × RandomService :=
  let (ux, rs1) := rs.uniform cfg.xRange
  let vertex_x := ux * I3Units.m
  let (uy, rs2) := rs1.uniform cfg.yRange
  let vertex_y := uy * I3Units.m
  let (uz, rs3) := rs2.uniform cfg.zRange
  let vertex_z := uz * I3Units.m
  let (ut, rs4) := rs3.uniform cfg.timeRange
  let vertex_time := ut * I3Units.ns
  let (ua, rs5) := rs4.uniform cfg.azimuthRange
  let azimuth := ua * deg
  let (uzen, rs6) := rs5.uniform cfg.zenithRange
  let zenith := uzen * deg
  let (uh, rs7) := rs6.uniform cfg.hadronEnergyRange
  let hadron_energy := uh * I3Units.GeV
  let (fraction, rs8) := rs7.uniform cfg.fractionalEnergyInHadronsRange
  cascadeBuild cfg vertex_x vertex_y vertex_z vertex_time azimuth zenith
    hadron_energy fraction rs8

/-- The event loop driving `CascadeFactory`: the external `I3InfiniteSource`
keeps delivering frames (`fuel` bounds the model's loop); each frame runs
`DAQ` once, the produced tree is pushed, and the loop stops once the module
has requested suspension.  An exception aborts the run. -/
def runCascadeFactory (deg : ℚ) (cfg : Config) :
    DriverState → RandomService → ℕ → Except SimError (List (DecayTree CParticle))
  | _, _, 0 => .ok []
  | st, rs, fuel + 1 =>
    match CascadeFactory.DAQ deg cfg rs with
    | (.error e, _) => .error e
    | (.ok t, rsNext) =>
      let (st1, suspend) := driverTick st
      if suspend then .ok [t]
      else
        match runCascadeFactory deg cfg st1 rsNext fuel with
        | .error e => .error e
        | .ok ts => .ok (t :: ts)

/-- The cascade pipeline of `main`: configure the module, then run the event
loop from a fresh counter; a configuration error aborts before any sampling
(the random service is not consulted). -/
def runCascadeSim (raw : RawConfig) (deg : ℚ) (rs : RandomService) (fuel : ℕ) :
    Except SimError (List (DecayTree CParticle)) :=
  match CascadeFactory.Configure raw with
  | .error e => .error e
  | .ok cfg => runCascadeFactory deg cfg ⟨0, cfg.numEvents⟩ rs fuel

/-- A real-coordinate `I3Position` (vector) for the muon geometry. -/
structure Vec3R where
  x : ℝ
  y : ℝ
  z : ℝ

/-- Componentwise vector subtraction of `I3Position`s. -/
def Vec3R.sub (u v : Vec3R) : Vec3R :=
  ⟨u.x - v.x, u.y - v.y, u.z - v.z⟩

/-- Scaling of a direction vector by a scalar. -/
def Vec3R.smul (c : ℝ) (v : Vec3R) : Vec3R :=
  ⟨c * v.x, c * v.y, c * v.z⟩

/-- Squared Euclidean distance of two positions. -/
def Vec3R.distSq (u v : Vec3R) : ℝ :=
  (u.x - v.x) ^ 2 + (u.y - v.y) ^ 2 + (u.z - v.z) ^ 2

/-- An `I3Direction` of the muon script: the (zenith, azimuth) pair in
radians handed to the constructor. -/
structure I3DirectionR where
  zenith : ℝ
  azimuth : ℝ

/-- The external `I3Direction` spherical-to-Cartesian conversion: the unit
vector of travel for angles (zenith `θ`, azimuth `φ`) is
`(-sin θ cos φ, -sin θ sin φ, -cos θ)` (the angles name the point the
particle comes from). -/
noncomputable def I3DirectionR.unitVec (d : I3DirectionR) : Vec3R :=
  ⟨-(Real.sin d.zenith) * Real.cos d.azimuth,
   -(Real.sin d.zenith) * Real.sin d.azimuth,
   -(Real.cos d.zenith)⟩

/-- The radian-per-degree constant `I3Units.deg = π/180`. -/
noncomputable def I3UnitsDegR : ℝ := Real.pi / 180

/-- Parameters of `create_muon` (defaults as in the source signature). -/
structure MuonConfig where
  azimuthRange : Range
  zenithRange : Range
  energyRange : Range
  anchorTimeRange : Range
  anchorXRange : Range
  anchorYRange : Range
  anchorZRange : Range
  lengthToGoBack : ℚ

/-- An `I3Particle` as populated by `create_muon`: only the position is
real-valued (it comes out of the trigonometric back-projection); every other
field is an exact rational of the sampling. -/
structure MuonParticle where
  speed : ℚ
  location : LocationType
  ptype : PType
  dir : I3DirectionR
  energy : ℚ
  pos : Vec3R
  time : ℚ

/-- `create_muon`: samples azimuth, zenith, energy, the anchor point and the
anchor time (seven draws, in source order), converts the angles to radians
(`* I3Units.deg`), and back-projects the vertex
`anchor - length_to_go_back * I3Units.m * muon.dir` and the vertex time
`anchor_time - (length_to_go_back * I3Units.m / muon.speed) * I3Units.ns`,
with `muon.speed = I3Constants.c`. -/
noncomputable def create_muon (cfg : MuonConfig) (rs : RandomService) :
    MuonParticle × RandomService :=
  let (ua, rs1) := rs.uniform cfg.azimuthRange
  let azimuth : ℝ := (ua : ℝ) * I3UnitsDegR
  let (uzen, rs2) := rs1.uniform cfg.zenithRange
  let zenith : ℝ := (uzen : ℝ) * I3UnitsDegR
  let (ue, rs3) := rs2.uniform cfg.energyRange
  let energy := ue * I3Units.GeV
  let dir : I3DirectionR := ⟨zenith, azimuth⟩
  let (ax, rs4) := rs3.uniform cfg.anchorXRange
  let (ay, rs5) := rs4.uniform cfg.anchorYRange
  let (az, rs6) := rs5.uniform cfg.anchorZRange
  let anchor : Vec3R :=
    ⟨((ax * I3Units.m : ℚ) : ℝ), ((ay * I3Units.m : ℚ) : ℝ), ((az * I3Units.m : ℚ) : ℝ)⟩
  let (ut, rs7) := rs6.uniform cfg.anchorTimeRange
  let anchor_time := ut * I3Units.ns
  let vertex :=
    Vec3R.sub anchor
      (Vec3R.smul ((cfg.lengthToGoBack * I3Units.m : ℚ) : ℝ) dir.unitVec)
  let travel_time := cfg.lengthToGoBack * I3Units.m / I3Constants.c
  let vertex_time := anchor_time - travel_time * I3Units.ns
  ({ speed := I3Constants.c
     location := .inIce
     ptype := .MuMinus
     dir := dir
     energy := energy * I3Units.GeV
     pos := vertex
     time := vertex_time * I3Units.ns }, rs7)

/-- `ParticleMultiplier.DAQ`: wraps the configured primary into a one-node
`I3MCTree`, pushes the frame, and runs the event-count bookkeeping; the Bool
is whether suspension was requested.  It performs no sampling and never
raises. -/
def ParticleMultiplier.DAQ {α : Type} (primary : α) (st : DriverState) :
    DecayTree α × DriverState × Bool :=
  let tree : DecayTree α := ⟨primary, []⟩
  let (st1, suspend) := driverTick st
  (tree, st1, suspend)

/-- The event loop driving `ParticleMultiplier`: frames keep arriving from
the external `I3InfiniteSource` (`fuel` bounds the model's loop) until the
module requests suspension. -/
def runMultiplier {α : Type} (primary : α) :
    DriverState → ℕ → List (DecayTree α) × DriverState
  | st, 0 => ([], st)
  | st, fuel + 1 =>
    let (t, st1, suspend) := ParticleMultiplier.DAQ primary st
    if suspend then ([t], st1)
    else
      let (ts, st2) := runMultiplier primary st1 fuel
      (t :: ts, st2)

/-- The muon pipeline of `main` in `step_0_muon_resimulation.py`: sample one
muon with `create_muon` (before the tray runs), then let the
`ParticleMultiplier` replay it for `num_events` events. -/
noncomputable def muonMain (cfg : MuonConfig) (numEvents fuel : ℕ)
    (rs : RandomService) : List (DecayTree MuonParticle) :=
  let (muon, _) := create_muon cfg rs
  (runMultiplier muon ⟨0, numEvents⟩ fuel).1

/-- A `Config` as `Configure` produces it when both category lists are
nonempty: stored lengths match the lists, every entry passed its sanity
check, and both lists have at least one element. -/
def Config.Wellformed (cfg : Config) : Prop :=
  cfg.numFlavors = cfg.flavors.length ∧
  cfg.numInteractionTypes = cfg.interactionTypes.length ∧
  cfg.flavors ≠ [] ∧
  cfg.interactionTypes ≠ [] ∧
  (∀ f ∈ cfg.flavors, invalidFlavor f = false) ∧
  (∀ i ∈ cfg.interactionTypes, invalidInteraction i = false)

instance (cfg : Config) : Decidable cfg.Wellformed := by
  unfold Config.Wellformed
  infer_instance

theorem configure_ok_facts {raw : RawConfig} {cfg : Config}
    (h : CascadeFactory.Configure raw = .ok cfg) :
    cfg.flavors = raw.flavors.map strToLower ∧
    cfg.interactionTypes = raw.interactionTypes.map strToLower ∧
    cfg.numFlavors = cfg.flavors.length ∧
    cfg.numInteractionTypes = cfg.interactionTypes.length ∧
    (∀ f ∈ cfg.flavors, invalidFlavor f = false) ∧
    (∀ i ∈ cfg.interactionTypes, invalidInteraction i = false) ∧
    cfg.eps = 1 / 1000000 ∧
    cfg.numEvents = raw.numEvents := by
  unfold CascadeFactory.Configure at h
  simp only [] at h
  split at h
  · exact absurd h (by simp)
  · split at h
    · exact absurd h (by simp)
    · rename_i hint _ hfl
      obtain rfl : _ = cfg := Except.ok.inj h
      refine ⟨rfl, rfl, by simp [configuredOf], by simp [configuredOf], ?_, ?_, rfl, rfl⟩
      · intro f hf
        have := List.find?_eq_none.mp hfl f hf
        simpa using this
      · intro i hi
        have := List.find?_eq_none.mp hint i hi
        simpa using this

theorem resolveParticleTypes_ok {flavor : String}
    (h : invalidFlavor flavor = false) (interaction : String) :
    ∃ pk dk, resolveParticleTypes flavor interaction = .ok (pk, dk) := by
  have hcases : flavor = "nue" ∨ flavor = "numu" ∨ flavor = "nutau" := by
    by_contra hc
    push_neg at hc
    simp [invalidFlavor, hc.1, hc.2.1, hc.2.2] at h
  rcases hcases with h | h | h <;> subst h <;> exact ⟨_, _, rfl⟩

theorem chooseCategory_ok (rs : RandomService) (items : List String) (n : ℕ)
    (hn : n = items.length) (hne : items ≠ []) :
    ∃ x, items[(⌊rs.stream rs.idx * (n : ℚ)⌋).toNat % n]? = some x ∧
      chooseCategory rs items n = .ok (x, ⟨rs.stream, rs.idx + 1⟩) := by
  subst hn
  have hlen : items.length ≠ 0 := by
    simpa [List.length_eq_zero] using hne
  have hlt : (⌊rs.stream rs.idx * (items.length : ℚ)⌋).toNat % items.length
      < items.length := Nat.mod_lt _ (Nat.pos_of_ne_zero hlen)
  refine ⟨_, List.getElem?_eq_getElem hlt, ?_⟩
  unfold chooseCategory RandomService.integer lookupItem
  rw [if_neg hlen]
  simp only []
  rw [List.getElem?_eq_getElem hlt]

/-- The eight uniform draws of `CascadeFactory.DAQ` read the stream at
offsets 0–7 in source order and leave the stream at offset 8 for the two
categorical draws. -/
theorem CascadeFactory.DAQ_eq (deg : ℚ) (cfg : Config) (rs : RandomService) :
    CascadeFactory.DAQ deg cfg rs
      = cascadeBuild cfg
          (uniformVal cfg.xRange (rs.stream rs.idx) * I3Units.m)
          (uniformVal cfg.yRange (rs.stream (rs.idx + 1)) * I3Units.m)
          (uniformVal cfg.zRange (rs.stream (rs.idx + 2)) * I3Units.m)
          (uniformVal cfg.timeRange (rs.stream (rs.idx + 3)) * I3Units.ns)
          (uniformVal cfg.azimuthRange (rs.stream (rs.idx + 4)) * deg)
          (uniformVal cfg.zenithRange (rs.stream (rs.idx + 5)) * deg)
          (uniformVal cfg.hadronEnergyRange (rs.stream (rs.idx + 6)) * I3Units.GeV)
          (uniformVal cfg.fractionalEnergyInHadronsRange (rs.stream (rs.idx + 7)))
          ⟨rs.stream, rs.idx + 8⟩ := rfl

/-- On a wellformed configuration `cascadeBuild` always succeeds: the flavor
and interaction type are selected by the two categorical draws, resolved by
the decision table, and assembled into the tree; the stream advances by the
two draws. -/
theorem cascadeBuild_ok (cfg : Config) (hW : cfg.Wellformed)
    (vertex_x vertex_y vertex_z vertex_time azimuth zenith hadron_energy fraction : ℚ)
    (rs : RandomService) :
    ∃ flavor interaction pk dk,
      cfg.flavors[(⌊rs.stream rs.idx * (cfg.numFlavors : ℚ)⌋).toNat % cfg.numFlavors]?
        = some flavor ∧
      cfg.interactionTypes[(⌊rs.stream (rs.idx + 1) * (cfg.numInteractionTypes : ℚ)⌋).toNat
          % cfg.numInteractionTypes]? = some interaction ∧
      resolveParticleTypes flavor interaction = .ok (pk, dk) ∧
      cascadeBuild cfg vertex_x vertex_y vertex_z vertex_time azimuth zenith
          hadron_energy fraction rs
        = (.ok (cascadeTreeOf cfg vertex_x vertex_y vertex_z vertex_time azimuth
                  zenith hadron_energy fraction flavor interaction pk dk),
           ⟨rs.stream, rs.idx + 2⟩) := by
  obtain ⟨hnf, hni, hfne, hine, hfval, hival⟩ := hW
  obtain ⟨flavor, hfget, hfchoose⟩ := chooseCategory_ok rs cfg.flavors cfg.numFlavors hnf hfne
  obtain ⟨interaction, higet, hichoose⟩ :=
    chooseCategory_ok ⟨rs.stream, rs.idx + 1⟩ cfg.interactionTypes cfg.numInteractionTypes hni hine
  have hfmem : flavor ∈ cfg.flavors := by
    obtain ⟨hi, rfl⟩ := List.getElem?_eq_some.mp hfget
    exact List.getElem_mem hi
  obtain ⟨pk, dk, hres⟩ := resolveParticleTypes_ok (hfval flavor hfmem) interaction
  refine ⟨flavor, interaction, pk, dk, hfget, higet, hres, ?_⟩
  unfold cascadeBuild
  rw [hfchoose]
  simp only []
  rw [hichoose]
  simp only []
  rw [hres]

/-- Driving `ParticleMultiplier` from `d` events done towards target `N`
emits exactly `N - d` further trees, one per invocation, and ends with the
counter at the target. -/
theorem runMultiplier_spec {α : Type} (primary : α) :
    ∀ (fuel d N : ℕ), d < N → N - d ≤ fuel →
      (runMultiplier primary ⟨d, N⟩ fuel).1.length = N - d ∧
      (runMultiplier primary ⟨d, N⟩ fuel).2 = ⟨N, N⟩ := by
  intro fuel
  induction fuel with
  | zero => intro d N hd hf; omega
  | succ fuel ih =>
    intro d N hd hf
    unfold runMultiplier ParticleMultiplier.DAQ driverTick
    simp only []
    by_cases hs : d + 1 ≥ N
    · have h1 : N - d = 1 := by omega
      simp [hs, h1]
      omega
    · obtain ⟨ih1, ih2⟩ := ih (d + 1) N (by omega) (by omega)
      simp [hs, ih1, ih2]
      omega

/-- Every tree `ParticleMultiplier` ever emits is the one-node tree of the
configured primary. -/
theorem runMultiplier_trees {α : Type} (primary : α) :
    ∀ (fuel : ℕ) (st : DriverState),
      (runMultiplier primary st fuel).1
        = List.replicate (runMultiplier primary st fuel).1.length ⟨primary, []⟩ := by
  intro fuel
  induction fuel with
  | zero => intro st; rfl
  | succ fuel ih =>
    intro st
    unfold runMultiplier ParticleMultiplier.DAQ driverTick
    simp only []
    by_cases hs : st.eventsDone + 1 ≥ st.numEvents
    · simp [hs, List.replicate]
    · simp [hs, List.replicate_succ]
      exact ih _

/-- The default `CascadeFactory` parameters registered in `__init__`. -/
def rawDefault : RawConfig :=
  { azimuthRange := ⟨0, 360⟩
    zenithRange := ⟨0, 180⟩
    hadronEnergyRange := ⟨10000, 10000⟩
    fractionalEnergyInHadronsRange := ⟨0, 1⟩
    timeRange := ⟨9000, 12000⟩
    xRange := ⟨-500, 500⟩
    yRange := ⟨-500, 500⟩
    zRange := ⟨-500, 500⟩
    flavors := ["NuE", "NuMu", "NuTau"]
    interactionTypes := ["CC", "NC"]
    numEvents := 1 }

/-- The module state after configuring the default parameters. -/
def cfgDefault : Config :=
  { azimuthRange := ⟨0, 360⟩
    zenithRange := ⟨0, 180⟩
    hadronEnergyRange := ⟨10000, 10000⟩
    fractionalEnergyInHadronsRange := ⟨0, 1⟩
    timeRange := ⟨9000, 12000⟩
    xRange := ⟨-500, 500⟩
    yRange := ⟨-500, 500⟩
    zRange := ⟨-500, 500⟩
    flavors := ["nue", "numu", "nutau"]
    interactionTypes := ["cc", "nc"]
    numFlavors := 3
    numInteractionTypes := 2
    numEvents := 1
    eps := 1 / 1000000 }

/-- A concrete unit-draw stream for evaluating the model. -/
def halfStream : ℕ → ℚ := fun _ => 1 / 2


/-- C2: for every (flavor, interaction_type) pair in
{nue, numu, nutau} × {cc, nc}, event construction sets the primary kind to
the neutrino of the flavor, the charged-current daughter to the flavor's
charged lepton partner, the neutral-current daughter kind equal to the
primary kind, and the daughter shape to track only for numu-cc, cascade in
the other five cases. -/
theorem particle_decision_table :
    resolveParticleTypes "nue" "cc" = .ok (.NuE, .EMinus) ∧
    resolveDaughterShape "nue" "cc" = .cascade ∧
    resolveParticleTypes "numu" "cc" = .ok (.NuMu, .MuMinus) ∧
    resolveDaughterShape "numu" "cc" = .infiniteTrack ∧
    resolveParticleTypes "nutau" "cc" = .ok (.NuTau, .TauMinus) ∧
    resolveDaughterShape "nutau" "cc" = .cascade ∧
    resolveParticleTypes "nue" "nc" = .ok (.NuE, .NuE) ∧
    resolveDaughterShape "nue" "nc" = .cascade ∧
    resolveParticleTypes "numu" "nc" = .ok (.NuMu, .NuMu) ∧
    resolveDaughterShape "numu" "nc" = .cascade ∧
    resolveParticleTypes "nutau" "nc" = .ok (.NuTau, .NuTau) ∧
    resolveDaughterShape "nutau" "nc" = .cascade := by
  decide

/-- C3: the builder computes `primary_energy = hadron_energy / (fraction + ε)`
with `ε` the fixed constant `1e-6` (stored by `Configure` as `self.eps`), and
`daughter_energy = primary_energy - hadron_energy`, so that
`primary_energy - daughter_energy = hadron_energy` holds exactly (the model
uses exact rational arithmetic). -/
theorem cascade_energy_partition :
    (∀ hadron_energy fraction : ℚ,
      primaryEnergyOf (1 / 1000000) hadron_energy fraction
        = hadron_energy / (fraction + 1 / 1000000) ∧
      daughterEnergyOf (1 / 1000000) hadron_energy fraction
        = primaryEnergyOf (1 / 1000000) hadron_energy fraction - hadron_energy ∧
      primaryEnergyOf (1 / 1000000) hadron_energy fraction
        - daughterEnergyOf (1 / 1000000) hadron_energy fraction = hadron_energy) ∧
    (∀ (raw : RawConfig) (cfg : Config),
      CascadeFactory.Configure raw = .ok cfg → cfg.eps = 1 / 1000000) := by
  constructor
  · intro h f
    refine ⟨by rw [primaryEnergyOf, add_comm], rfl, ?_⟩
    unfold daughterEnergyOf
    ring
  · intro raw cfg h
    exact (configure_ok_facts h).2.2.2.2.2.2.1

theorem cascade_energy_partition_witness :
    primaryEnergyOf (1 / 1000000) 10000 (1 / 2)
      - daughterEnergyOf (1 / 1000000) 10000 (1 / 2) = 10000 ∧
    cfgDefault.eps = 1 / 1000000 :=
  ⟨(cascade_energy_partition.1 10000 (1 / 2)).2.2,
   cascade_energy_partition.2 rawDefault cfgDefault rfl⟩

/-- C5 counterexample: the claim picks the wrong end of the fraction range.
At the smallest samplable hadronic fraction `f = 0` (hadron energy
10000 > 0) the computed daughter energy is `9999990000`, which is large and
positive, not negative; it stays positive well above zero (`f = 1/1000`). -/
theorem daughter_energy_small_fraction_positive :
    daughterEnergyOf (1 / 1000000) 10000 0 = 9999990000 ∧
    0 < daughterEnergyOf (1 / 1000000) 10000 0 ∧
    0 < daughterEnergyOf (1 / 1000000) 10000 (1 / 1000) := by
  refine ⟨?_, ?_, ?_⟩ <;> norm_num [daughterEnergyOf, primaryEnergyOf]

/-- C5 (amended): for positive hadron energy and a fraction sampled at or
above 0, the daughter energy `h/(f+ε) - h` is negative exactly when
`ε + f > 1`, i.e. only when `f` lies within `ε` of the top of the unit
range (`f > 1 - ε = 0.999999`); for `f` at or near zero it is positive. -/
theorem daughter_energy_negative_iff (hadron_energy fraction : ℚ)
    (hh : 0 < hadron_energy) (hf : 0 ≤ fraction) :
    daughterEnergyOf (1 / 1000000) hadron_energy fraction < 0
      ↔ 1 < 1 / 1000000 + fraction := by
  unfold daughterEnergyOf primaryEnergyOf
  have hpos : 0 < 1 / 1000000 + fraction := by linarith
  constructor
  · intro hneg
    by_contra hle
    push_neg at hle
    have hge : hadron_energy ≤ hadron_energy / (1 / 1000000 + fraction) := by
      rw [le_div_iff₀ hpos]
      nlinarith
    linarith
  · intro hgt
    have hlt : hadron_energy / (1 / 1000000 + fraction) < hadron_energy := by
      rw [div_lt_iff₀ hpos]
      nlinarith
    linarith

theorem daughter_energy_negative_iff_witness :
    daughterEnergyOf (1 / 1000000) 10000 1 < 0 :=
  (daughter_energy_negative_iff 10000 1 (by norm_num) (by norm_num)).mpr
    (by norm_num)

/-- A concrete muon record (as `create_muon` would shape it) used to exercise
the particle multiplier on explicit inputs. -/
noncomputable def muonExample : MuonParticle :=
  { speed := I3Constants.c
    location := .inIce
    ptype := .MuMinus
    dir := ⟨0, 0⟩
    energy := 10000
    pos := ⟨0, 0, 0⟩
    time := 9000 }

/-- C6 counterexample: with target `N = 1` the multiplier reaches its target
(suspension requested) on the first invocation; invoking `DAQ` again on the
done state does not fail with any lifecycle error — it produces a second,
(N+1)-th, `DecayTree` and merely re-requests suspension. -/
theorem driver_post_done_produces :
    (ParticleMultiplier.DAQ muonExample ⟨0, 1⟩).2.2 = true ∧
    ParticleMultiplier.DAQ muonExample ⟨1, 1⟩
      = (⟨muonExample, []⟩, ⟨2, 1⟩, true) :=
  ⟨rfl, rfl⟩

/-- C6 (amended): for a target count `N ≥ 1` (and enough frames from the
external source), the driver emits exactly one `DecayTree` per invocation
and exactly `N` in total, requesting suspension on the `N`-th; but an
invocation after the target is reached does not fail — the code has no
lifecycle error — it emits another tree and re-requests suspension. -/
theorem driver_emits_target_count {α : Type} (primary : α) (N fuel : ℕ)
    (h1 : 1 ≤ N) (h2 : N ≤ fuel) :
    (runMultiplier primary ⟨0, N⟩ fuel).1.length = N ∧
    (runMultiplier primary ⟨0, N⟩ fuel).2 = ⟨N, N⟩ ∧
    ParticleMultiplier.DAQ primary ⟨N, N⟩ = (⟨primary, []⟩, ⟨N + 1, N⟩, true) := by
  obtain ⟨hl, hs⟩ := runMultiplier_spec primary fuel 0 N (by omega) (by omega)
  refine ⟨by simpa using hl, hs, ?_⟩
  unfold ParticleMultiplier.DAQ driverTick
  have hge : N + 1 ≥ N := by omega
  simp [hge]

theorem driver_emits_target_count_witness :
    (runMultiplier muonExample ⟨0, 3⟩ 5).1.length = 3 ∧
    (runMultiplier muonExample ⟨0, 3⟩ 5).2 = ⟨3, 3⟩ ∧
    ParticleMultiplier.DAQ muonExample ⟨3, 3⟩
      = (⟨muonExample, []⟩, ⟨4, 3⟩, true) :=
  driver_emits_target_count muonExample 3 5 (by decide) (by decide)

/-- C9: in the muon pipeline the muon is sampled exactly once, before the
event loop (`muonMain` calls `create_muon` once and hands the single record
to the multiplier), and every emitted `DecayTree` replays exactly that muon
as its primary: the emitted list is a replication of the one-sample tree, so
the i-th and j-th primaries coincide for all i, j. -/
theorem muon_replayed_identically (cfg : MuonConfig) (numEvents fuel : ℕ)
    (rs : RandomService) :
    muonMain cfg numEvents fuel rs
      = List.replicate (muonMain cfg numEvents fuel rs).length
          ⟨(create_muon cfg rs).1, []⟩ := by
  unfold muonMain
  rcases h : create_muon cfg rs with ⟨muon, rsEnd⟩
  simp only [h]
  exact runMultiplier_trees muon fuel _

/-- C7: an unrecognized flavor (e.g. `"nux"`) or interaction type (e.g.
`"xc"`) in the configured lists makes `Configure` raise (the spec's
ConfigurationError) at configuration time — `Configure` takes no random
service, so no sampling can occur — and the whole pipeline aborts with that
same error for every random stream and frame budget, producing no events. -/
theorem configure_rejects_unknown_categories (raw : RawConfig)
    (hbad : (∃ f ∈ raw.flavors, invalidFlavor (strToLower f) = true) ∨
            (∃ i ∈ raw.interactionTypes, invalidInteraction (strToLower i) = true)) :
    ∃ e : SimError, e.isConfigurationError = true ∧
      CascadeFactory.Configure raw = .error e ∧
      ∀ (deg : ℚ) (rs : RandomService) (fuel : ℕ),
        runCascadeSim raw deg rs fuel = .error e := by
  have hc : ∃ e : SimError, e.isConfigurationError = true ∧
      CascadeFactory.Configure raw = .error e := by
    unfold CascadeFactory.Configure
    simp only []
    rcases hif : (configuredOf raw).interactionTypes.find? invalidInteraction
      with _ | i
    · rcases hff : (configuredOf raw).flavors.find? invalidFlavor with _ | f
      · exfalso
        rcases hbad with ⟨f, hf, hbadf⟩ | ⟨i, hi, hbadi⟩
        · exact (List.find?_eq_none.mp hff (strToLower f)
            (List.mem_map_of_mem _ hf)) hbadf
        · exact (List.find?_eq_none.mp hif (strToLower i)
            (List.mem_map_of_mem _ hi)) hbadi
      · exact ⟨.unknownFlavor f, rfl, rfl⟩
    · exact ⟨.unknownInteraction i, rfl, rfl⟩
  obtain ⟨e, he1, he2⟩ := hc
  refine ⟨e, he1, he2, fun deg rs fuel => ?_⟩
  unfold runCascadeSim
  rw [he2]

/-- The default parameters with the unknown flavor of §8 of the spec. -/
def rawBadFlavor : RawConfig :=
  { rawDefault with flavors := ["nux"] }

theorem configure_rejects_unknown_categories_witness :
    (CascadeFactory.Configure rawBadFlavor).isOk = false := by
  obtain ⟨e, _, he2, _⟩ :=
    configure_rejects_unknown_categories rawBadFlavor (Or.inl (by decide))
  rw [he2]
  rfl

/-- The default parameters with an empty flavors list (category count 0). -/
def rawEmptyFlavors : RawConfig :=
  { rawDefault with flavors := [] }

/-- C8 counterexample: an empty flavors list — category count 0 — passes
`Configure` (the sanity-check loops are vacuous; there is no emptiness
check), so setup does not fail. -/
theorem configure_accepts_empty_flavors :
    CascadeFactory.Configure rawEmptyFlavors = .ok (configuredOf rawEmptyFlavors) ∧
    (configuredOf rawEmptyFlavors).numFlavors = 0 :=
  ⟨rfl, rfl⟩

/-- C8 (amended): a non-positive category count is not rejected at setup:
with an empty flavors list (and recognized interaction types) `Configure`
succeeds, and the failure surfaces at first use during event generation —
the first `DAQ` invocation fails at the categorical draw, after the eight
uniform draws, so the run aborts with zero events produced. -/
theorem empty_category_fails_at_first_daq (raw : RawConfig)
    (hfl : raw.flavors = [])
    (hint : ∀ i ∈ raw.interactionTypes, invalidInteraction (strToLower i) = false) :
    CascadeFactory.Configure raw = .ok (configuredOf raw) ∧
    (∀ (deg : ℚ) (rs : RandomService),
      CascadeFactory.DAQ deg (configuredOf raw) rs
        = (.error .badCategoryCount, ⟨rs.stream, rs.idx + 8⟩)) ∧
    (∀ (deg : ℚ) (rs : RandomService) (fuel : ℕ),
      runCascadeSim raw deg rs (fuel + 1) = .error .badCategoryCount) := by
  have hifind : (configuredOf raw).interactionTypes.find? invalidInteraction
      = none := by
    rw [List.find?_eq_none]
    intro x hx
    obtain ⟨i, hi, rfl⟩ := List.mem_map.mp hx
    simp [hint i hi]
  have hffind : (configuredOf raw).flavors.find? invalidFlavor = none := by
    show (raw.flavors.map strToLower).find? invalidFlavor = none
    rw [hfl]
    rfl
  have hconf : CascadeFactory.Configure raw = .ok (configuredOf raw) := by
    unfold CascadeFactory.Configure
    simp only []
    rw [hifind, hffind]
  have hnum : (configuredOf raw).numFlavors = 0 := by
    show raw.flavors.length = 0
    rw [hfl]
    rfl
  have hdaq : ∀ (deg : ℚ) (rs : RandomService),
      CascadeFactory.DAQ deg (configuredOf raw) rs
        = (.error .badCategoryCount, ⟨rs.stream, rs.idx + 8⟩) := by
    intro deg rs
    rw [CascadeFactory.DAQ_eq]
    unfold cascadeBuild chooseCategory RandomService.integer
    rw [hnum]
    simp
  refine ⟨hconf, hdaq, ?_⟩
  intro deg rs fuel
  unfold runCascadeSim
  rw [hconf]
  simp only []
  unfold runCascadeFactory
  rw [hdaq]

theorem empty_category_fails_at_first_daq_witness :
    (CascadeFactory.Configure rawEmptyFlavors).isOk = true ∧
    runCascadeSim rawEmptyFlavors 1 ⟨halfStream, 0⟩ 1
      = .error .badCategoryCount := by
  obtain ⟨hconf, hdaq, hrun⟩ :=
    empty_category_fails_at_first_daq rawEmptyFlavors rfl (by decide)
  exact ⟨by rw [hconf]; rfl, hrun 1 ⟨halfStream, 0⟩ 0⟩

theorem chooseCategory_error_cases {rs : RandomService} {items : List String}
    {n : ℕ} {e : SimError} (h : chooseCategory rs items n = .error e) :
    e = .badCategoryCount ∨ e = .indexOutOfRange := by
  unfold chooseCategory RandomService.integer at h
  by_cases h0 : n = 0
  · rw [if_pos h0] at h
    exact Or.inl (Except.error.inj h).symm
  · rw [if_neg h0] at h
    have h1 : lookupItem items ((⌊rs.stream rs.idx * (n : ℚ)⌋).toNat % n)
        ⟨rs.stream, rs.idx + 1⟩ = .error e := h
    unfold lookupItem at h1
    rcases hge : items[(⌊rs.stream rs.idx * (n : ℚ)⌋).toNat % n]? with _ | x
    · rw [hge] at h1
      exact Or.inr (Except.error.inj h1).symm
    · rw [hge] at h1
      simp at h1

theorem chooseCategory_mem {rs : RandomService} {items : List String} {n : ℕ}
    {x : String} {rsN : RandomService}
    (h : chooseCategory rs items n = .ok (x, rsN)) : x ∈ items := by
  unfold chooseCategory RandomService.integer at h
  by_cases h0 : n = 0
  · rw [if_pos h0] at h
    simp at h
  · rw [if_neg h0] at h
    have h1 : lookupItem items ((⌊rs.stream rs.idx * (n : ℚ)⌋).toNat % n)
        ⟨rs.stream, rs.idx + 1⟩ = .ok (x, rsN) := h
    unfold lookupItem at h1
    rcases hge : items[(⌊rs.stream rs.idx * (n : ℚ)⌋).toNat % n]? with _ | y
    · rw [hge] at h1
      simp at h1
    · rw [hge] at h1
      have hy : y = x := congrArg Prod.fst (Except.ok.inj h1)
      subst hy
      obtain ⟨hi, rfl⟩ := List.getElem?_eq_some.mp hge
      exact List.getElem_mem hi

/-- C10: under the precondition that configuration succeeded (so every
stored flavor, lowercased, is one of nue/numu/nutau), the final `else`
branch of the `DAQ` flavor dispatch — the `ValueError` for an unknown
particle type — is unreachable: no invocation, on any random stream, ever
yields the unknown-particle-type error (every selected flavor resolves
through one of the six known cases; the other failure modes of `DAQ` are
the categorical-draw errors, which are distinct). -/
theorem unknown_particle_branch_unreachable
    (raw : RawConfig) (cfg : Config) (h : CascadeFactory.Configure raw = .ok cfg)
    (deg : ℚ) (rs : RandomService) :
    (CascadeFactory.DAQ deg cfg rs).1.errIsUnknownParticleType = false := by
  obtain ⟨hfl, hint, hnf, hni, hfval, hival, heps, hne⟩ := configure_ok_facts h
  rw [CascadeFactory.DAQ_eq]
  unfold cascadeBuild
  rcases h1 : chooseCategory ⟨rs.stream, rs.idx + 8⟩ cfg.flavors cfg.numFlavors
    with e | ⟨flavor, rs9⟩
  · rcases chooseCategory_error_cases h1 with rfl | rfl <;> rfl
  · simp only []
    rcases h2 : chooseCategory rs9 cfg.interactionTypes cfg.numInteractionTypes
      with e | ⟨interaction, rs10⟩
    · rcases chooseCategory_error_cases h2 with rfl | rfl <;> rfl
    · simp only []
      obtain ⟨pk, dk, hres⟩ :=
        resolveParticleTypes_ok (hfval flavor (chooseCategory_mem h1)) interaction
      rw [hres]
      rfl

theorem unknown_particle_branch_unreachable_witness :
    (CascadeFactory.DAQ 1 cfgDefault ⟨halfStream, 0⟩).1.errIsUnknownParticleType
      = false :=
  unknown_particle_branch_unreachable rawDefault cfgDefault rfl 1 ⟨halfStream, 0⟩

/-- Field characterization of `create_muon`: the direction stores the two
angle draws (azimuth first, zenith second) converted to radians; the vertex
is `anchor - length_to_go_back * I3Units.m * dir` with the anchor drawn at
offsets 3–5 of the stream; the time is
`anchor_time - length_to_go_back / c` with the anchor time drawn at
offset 6 (the unit factors are all 1 and are folded). -/
theorem create_muon_pos_time (cfg : MuonConfig) (rs : RandomService) :
    (create_muon cfg rs).1.dir
      = ⟨((uniformVal cfg.zenithRange (rs.stream (rs.idx + 1)) : ℚ) : ℝ) * I3UnitsDegR,
         ((uniformVal cfg.azimuthRange (rs.stream rs.idx) : ℚ) : ℝ) * I3UnitsDegR⟩ ∧
    (create_muon cfg rs).1.pos
      = Vec3R.sub
          ⟨((uniformVal cfg.anchorXRange (rs.stream (rs.idx + 3)) * I3Units.m : ℚ) : ℝ),
           ((uniformVal cfg.anchorYRange (rs.stream (rs.idx + 4)) * I3Units.m : ℚ) : ℝ),
           ((uniformVal cfg.anchorZRange (rs.stream (rs.idx + 5)) * I3Units.m : ℚ) : ℝ)⟩
          (Vec3R.smul ((cfg.lengthToGoBack * I3Units.m : ℚ) : ℝ)
            (I3DirectionR.unitVec (create_muon cfg rs).1.dir)) ∧
    (create_muon cfg rs).1.time
      = uniformVal cfg.anchorTimeRange (rs.stream (rs.idx + 6))
          - cfg.lengthToGoBack / I3Constants.c := by
  refine ⟨rfl, rfl, ?_⟩
  show (uniformVal cfg.anchorTimeRange (rs.stream (rs.idx + 6)) * I3Units.ns
      - cfg.lengthToGoBack * I3Units.m / I3Constants.c * I3Units.ns) * I3Units.ns
    = uniformVal cfg.anchorTimeRange (rs.stream (rs.idx + 6))
        - cfg.lengthToGoBack / I3Constants.c
  simp [I3Units.ns, I3Units.m]

/-- Configuration of the muon back-projection test of §8 of the spec: anchor
ranges degenerate at 0, zenith range fixed at 180°, back-projection distance
2000. -/
def muonTestConfig (azimuthRange energyRange anchorTimeRange : Range) : MuonConfig :=
  { azimuthRange := azimuthRange
    zenithRange := ⟨180, 180⟩
    energyRange := energyRange
    anchorTimeRange := anchorTimeRange
    anchorXRange := ⟨0, 0⟩
    anchorYRange := ⟨0, 0⟩
    anchorZRange := ⟨0, 0⟩
    lengthToGoBack := 2000 }

/-- C4: for every sampled muon, the computed vertex is
`anchor - back_projection_distance * unit_direction_vector` and the computed
vertex time is `anchor_time - back_projection_distance / speed`; in
particular, for anchor ranges degenerate at (0,0,0), zenith fixed at 180°
and distance 2000, the vertex lies at squared distance exactly 2000² from
the anchor and `vertex_time = anchor_time - 2000 / c`, for every random
stream. -/
theorem muon_back_projection :
    (∀ (cfg : MuonConfig) (rs : RandomService),
      (create_muon cfg rs).1.pos
        = Vec3R.sub
            ⟨((uniformVal cfg.anchorXRange (rs.stream (rs.idx + 3)) * I3Units.m : ℚ) : ℝ),
             ((uniformVal cfg.anchorYRange (rs.stream (rs.idx + 4)) * I3Units.m : ℚ) : ℝ),
             ((uniformVal cfg.anchorZRange (rs.stream (rs.idx + 5)) * I3Units.m : ℚ) : ℝ)⟩
            (Vec3R.smul ((cfg.lengthToGoBack * I3Units.m : ℚ) : ℝ)
              (I3DirectionR.unitVec (create_muon cfg rs).1.dir)) ∧
      (create_muon cfg rs).1.time
        = uniformVal cfg.anchorTimeRange (rs.stream (rs.idx + 6))
            - cfg.lengthToGoBack / I3Constants.c) ∧
    (∀ (azimuthRange energyRange anchorTimeRange : Range) (rs : RandomService),
      Vec3R.distSq
          (create_muon (muonTestConfig azimuthRange energyRange anchorTimeRange) rs).1.pos
          ⟨0, 0, 0⟩ = 2000 ^ 2 ∧
      (create_muon (muonTestConfig azimuthRange energyRange anchorTimeRange) rs).1.time
        = uniformVal anchorTimeRange (rs.stream (rs.idx + 6))
            - 2000 / I3Constants.c) := by
  constructor
  · intro cfg rs
    exact ⟨(create_muon_pos_time cfg rs).2.1, (create_muon_pos_time cfg rs).2.2⟩
  · intro azr er atr rs
    obtain ⟨hdir, hpos, htime⟩ := create_muon_pos_time (muonTestConfig azr er atr) rs
    constructor
    · rw [hpos, hdir]
      have hz : ((uniformVal (muonTestConfig azr er atr).zenithRange
          (rs.stream (rs.idx + 1)) : ℚ) : ℝ) * I3UnitsDegR = Real.pi := by
        show ((180 + ((180 : ℚ) - 180) * rs.stream (rs.idx + 1) : ℚ) : ℝ)
            * (Real.pi / 180) = Real.pi
        push_cast
        ring
      rw [hz]
      have huv : ∀ a : ℝ, I3DirectionR.unitVec ⟨Real.pi, a⟩ = ⟨0, 0, 1⟩ := by
        intro a
        unfold I3DirectionR.unitVec
        simp
      rw [huv]
      norm_num [muonTestConfig, Vec3R.distSq, Vec3R.sub, Vec3R.smul, uniformVal,
        I3Units.m]
    · rw [htime]
      rfl

/-- C1: the generator is a pure function of the seeded random source — two
runs from fresh, identically seeded services produce identical tree
sequences — and within one instance the draws of a cascade event consume
the stream in the fixed order: vertex x (offset 0), vertex y (1),
vertex z (2), vertex time (3), azimuth (4), zenith (5), hadron energy (6),
hadronic fraction (7), flavor index (8), interaction-type index (9), after
which the service stands at offset 10. -/
theorem cascade_determinism_and_draw_order :
    (∀ (gen : ℕ → ℕ → ℚ) (seed : ℕ) (raw : RawConfig) (deg : ℚ) (fuel : ℕ),
      runCascadeSim raw deg (RandomService.fromSeed gen seed) fuel
        = runCascadeSim raw deg (RandomService.fromSeed gen seed) fuel) ∧
    (∀ (deg : ℚ) (cfg : Config) (s : ℕ → ℚ) (k : ℕ), cfg.Wellformed →
      ∃ (t : DecayTree CParticle) (flavor interaction : String),
        CascadeFactory.DAQ deg cfg ⟨s, k⟩ = (.ok t, ⟨s, k + 10⟩) ∧
        t.primary.pos = ⟨uniformVal cfg.xRange (s k) * I3Units.m * I3Units.m,
                         uniformVal cfg.yRange (s (k + 1)) * I3Units.m * I3Units.m,
                         uniformVal cfg.zRange (s (k + 2)) * I3Units.m * I3Units.m⟩ ∧
        t.primary.time
          = uniformVal cfg.timeRange (s (k + 3)) * I3Units.ns * I3Units.ns ∧
        t.primary.dir = ⟨uniformVal cfg.zenithRange (s (k + 5)) * deg,
                         uniformVal cfg.azimuthRange (s (k + 4)) * deg⟩ ∧
        t.primary.energy
          = primaryEnergyOf cfg.eps
              (uniformVal cfg.hadronEnergyRange (s (k + 6)) * I3Units.GeV)
              (uniformVal cfg.fractionalEnergyInHadronsRange (s (k + 7)))
              * I3Units.GeV ∧
        t.children.map (fun p => p.energy)
          = [daughterEnergyOf cfg.eps
               (uniformVal cfg.hadronEnergyRange (s (k + 6)) * I3Units.GeV)
               (uniformVal cfg.fractionalEnergyInHadronsRange (s (k + 7)))
               * I3Units.GeV,
             uniformVal cfg.hadronEnergyRange (s (k + 6)) * I3Units.GeV
               * I3Units.GeV] ∧
        cfg.flavors[(⌊s (k + 8) * (cfg.numFlavors : ℚ)⌋).toNat % cfg.numFlavors]?
          = some flavor ∧
        cfg.interactionTypes[(⌊s (k + 9) * (cfg.numInteractionTypes : ℚ)⌋).toNat
            % cfg.numInteractionTypes]? = some interaction) := by
  refine ⟨fun gen seed raw deg fuel => rfl, ?_⟩
  intro deg cfg s k hW
  obtain ⟨flavor, interaction, pk, dk, hfget, higet, hres, hbuild⟩ :=
    cascadeBuild_ok cfg hW
      (uniformVal cfg.xRange (s k) * I3Units.m)
      (uniformVal cfg.yRange (s (k + 1)) * I3Units.m)
      (uniformVal cfg.zRange (s (k + 2)) * I3Units.m)
      (uniformVal cfg.timeRange (s (k + 3)) * I3Units.ns)
      (uniformVal cfg.azimuthRange (s (k + 4)) * deg)
      (uniformVal cfg.zenithRange (s (k + 5)) * deg)
      (uniformVal cfg.hadronEnergyRange (s (k + 6)) * I3Units.GeV)
      (uniformVal cfg.fractionalEnergyInHadronsRange (s (k + 7)))
      ⟨s, k + 8⟩
  exact ⟨cascadeTreeOf cfg (uniformVal cfg.xRange (s k) * I3Units.m)
      (uniformVal cfg.yRange (s (k + 1)) * I3Units.m)
      (uniformVal cfg.zRange (s (k + 2)) * I3Units.m)
      (uniformVal cfg.timeRange (s (k + 3)) * I3Units.ns)
      (uniformVal cfg.azimuthRange (s (k + 4)) * deg)
      (uniformVal cfg.zenithRange (s (k + 5)) * deg)
      (uniformVal cfg.hadronEnergyRange (s (k + 6)) * I3Units.GeV)
      (uniformVal cfg.fractionalEnergyInHadronsRange (s (k + 7)))
      flavor interaction pk dk,
    flavor, interaction, hbuild, rfl, rfl, rfl, rfl, rfl, hfget, higet⟩

theorem cascade_determinism_and_draw_order_witness :
    (CascadeFactory.DAQ 1 cfgDefault ⟨halfStream, 0⟩).2 = ⟨halfStream, 10⟩ := by
  obtain ⟨t, flavor, interaction, hDAQ, _⟩ :=
    cascade_determinism_and_draw_order.2 1 cfgDefault halfStream 0 (by decide)
  rw [hDAQ]
